import Mathlib

/-!
Verification of the guard-railed support-ticket copilot pipeline.

A shallow embedding of the repository's ticket-processing code:

* `ticket_graph.py` — the LangGraph pipeline: a state record (`TicketState`),
  per-node update functions, conditional routing functions, and a driver that
  walks the graph from the start node to a terminal node.  The graph structure
  (nodes, edges, conditional-edge maps) is transcribed from
  `build_ticket_graph`; the driver `runFrom` executes it with fuel and records
  the list of executed nodes (the trace).
* `rules_engine.py` — `apply_authorization_rules`, modelled over an explicit
  list of rules (the CSV file `data/auth_rules.csv` is data, not code, so the
  rule table is a parameter).
* `support_ticket_rag.py` — the control flow of
  `SupportTicketRAG.process_allowed_ticket`.  The keyword-overlap scorer
  `search_knowledge_base` and the LLM call `generate_solution` are external
  collaborators (network / heuristic); they appear as function-valued fields
  of `RagEngine`.  Relevance scores are rationals.
* `main.py` — the CLI entry point `main`, in particular the arity of its call
  to `process_ticket`.

The four collaborator calls made by the graph nodes (employee lookup, the
LLM classifier, the rule engine, the RAG engine) are gathered in the
`Collaborators` record so that theorems can quantify over their outputs.

Conventions: Python `None` is `Option.none`; a `TicketState` field that the
initial state sets to `None` and that no executed node has overwritten is
`none`.  The employee-profile field distinguishes "not yet written" (outer
`none`) from "lookup found nothing, replaced by the empty dict `\x7b\x7d`"
(inner `none`), exactly as `lookup_employee_profile` does.
-/

namespace TicketCopilot

/-- Employee profile returned by `employee_lookup.lookup_employee`
(one row of `users_roles.csv`). -/
structure EmployeeProfile where
  employee_id : String
  role : String
  department : String
  seniority : String
  deriving DecidableEq

/-- Result of `IntentAppropriatenessClassifier.classify_intent_and_appropriateness`:
the dict with keys `intent` and `is_appropriate`. -/
structure ClassifyResult where
  is_appropriate : Bool
  intent : String
  deriving DecidableEq

/-- Result dict of `SupportTicketRAG.process_allowed_ticket`. -/
structure RagResult where
  status : String
  message : String
  employee_id : String
  intent : String
  kb_relevance : ℚ
  debug_info : String
  deriving DecidableEq

/-- The `TicketState` TypedDict of `models.py`, plus the `ticket_id` key that
`process_ticket` adds to the initial state.  Every field below `body` is
`Option`-typed: `none` is Python `None` (the initial state sets every one of
them to `None`). -/
structure TicketState where
  ticket_id : String
  employee_id : String
  subject : String
  body : String
  employee_profile : Option (Option EmployeeProfile)
  is_appropriate : Option Bool
  intent : Option String
  auth_decision : Option String
  auth_reason : Option String
  rag_context : Option String
  rag_answer : Option String
  has_good_context : Option Bool
  outcome : Option String
  response : Option String
  deriving DecidableEq

/-- The four collaborator calls the graph nodes make, as pure functions
(`ticket_graph.py` wires them to module functions / singleton methods). -/
structure Collaborators where
  lookup_employee : String → Option EmployeeProfile
  classify_intent_and_appropriateness : String → ClassifyResult
  apply_authorization_rules : String → String → String → String × String
  process_allowed_ticket : String → String → String → RagResult

/-- The nodes of the graph registered in `build_ticket_graph`. -/
inductive Node where
  | lookup_employee_profile
  | classify_intent_and_appropriateness
  | check_authorization
  | rag_and_llm_answering
  | return_blocked_by_appropriateness
  | return_blocked_by_auth
  | return_needs_approval
  | return_solved_by_rag
  | return_escalate
  deriving DecidableEq

/-- Node `lookup_employee_profile`: calls `lookup_employee` and replaces a
`None` result with the empty dict (inner `none`). -/
def lookup_employee_profile (c : Collaborators) (st : TicketState) : TicketState :=
  let employee_profile := c.lookup_employee st.employee_id
  { st with employee_profile := some employee_profile }

/-- Node `classify_intent_and_appropriateness`: classifies
`f"\x7bsubject\x7d\n\x7bbody\x7d"` and stores `is_appropriate` and `intent`. -/
def classify_intent_and_appropriateness (c : Collaborators) (st : TicketState) : TicketState :=
  let ticket_text := st.subject ++ "\n" ++ st.body
  let result := c.classify_intent_and_appropriateness ticket_text
  { st with is_appropriate := some result.is_appropriate, intent := some result.intent }

/-- `employee_profile.get("role", "")` on the profile-or-empty-dict value. -/
def profileRole (p : Option EmployeeProfile) : String :=
  (p.map EmployeeProfile.role).getD ""

/-- `employee_profile.get("department", "")` on the profile-or-empty-dict value. -/
def profileDepartment (p : Option EmployeeProfile) : String :=
  (p.map EmployeeProfile.department).getD ""

/-- Node `check_authorization`: reads the stored profile and intent and calls
the rule engine.  In the graph this node only runs after
`lookup_employee_profile` and `classify_intent_and_appropriateness`, so both
fields are set; calling it on a state where either is still `None` is
modelled as a failure (`none`), matching the Python code, which cannot
produce a decision from `None` inputs on this path. -/
def check_authorization (c : Collaborators) (st : TicketState) : Option TicketState :=
  match st.employee_profile, st.intent with
  | some employee_profile, some intent =>
      let role := profileRole employee_profile
      let department := profileDepartment employee_profile
      let r := c.apply_authorization_rules intent role department
      some { st with auth_decision := some r.1, auth_reason := some r.2 }
  | _, _ => none

/-- Node `rag_and_llm_answering`: calls `process_allowed_ticket` on
`f"\x7bsubject\x7d\n\x7bbody\x7d"` and stores `debug_info`, `message`, and the
`has_good_context` flag (`result["status"] == "solved_by_rag"`).  As for
`check_authorization`, an unset intent is modelled as a failure. -/
def rag_and_llm_answering (c : Collaborators) (st : TicketState) : Option TicketState :=
  match st.intent with
  | some intent =>
      let ticket_text := st.subject ++ "\n" ++ st.body
      let result := c.process_allowed_ticket st.employee_id ticket_text intent
      some { st with
               rag_context := some result.debug_info,
               rag_answer := some result.message,
               has_good_context := some (decide (result.status = "solved_by_rag")) }
  | none => none

/-- Terminal node `return_blocked_by_appropriateness`. -/
def return_blocked_by_appropriateness (st : TicketState) : TicketState :=
  { st with
      outcome := some "blocked_by_appropriateness",
      response := some "Your request cannot be processed as it is not appropriate for this support channel." }

/-- Terminal node `return_blocked_by_auth`. -/
def return_blocked_by_auth (st : TicketState) : TicketState :=
  { st with
      outcome := some "blocked_by_auth",
      response := some "You are not authorized to perform this action." }

/-- Terminal node `return_needs_approval`. -/
def return_needs_approval (st : TicketState) : TicketState :=
  { st with
      outcome := some "needs_approval",
      response := some "Your request requires manager approval before it can be processed." }

/-- Terminal node `return_solved_by_rag`: `state.get("rag_answer", "")`; the
key is always present in the state dict, so this reads the stored value
(`None` if the RAG node never ran). -/
def return_solved_by_rag (st : TicketState) : TicketState :=
  { st with outcome := some "solved_by_rag", response := st.rag_answer }

/-- Terminal node `return_escalate`: a fixed message. -/
def return_escalate (st : TicketState) : TicketState :=
  { st with
      outcome := some "escalate",
      response := some "Your request has been escalated to a human support agent." }

/-- `route_after_appropriateness`: Python truthiness of
`state.get("is_appropriate")` (`None` is falsy). -/
def route_after_appropriateness (st : TicketState) : String :=
  if st.is_appropriate.getD false then "appropriate" else "not_appropriate"

/-- `route_after_authorization`: compares the stored decision with
`"allowed"` and `"needs_approval"`, defaulting to `"blocked_by_auth"`
(also when the stored value is `None` or any other string). -/
def route_after_authorization (st : TicketState) : String :=
  match st.auth_decision with
  | some d =>
      if d = "allowed" then "allowed"
      else if d = "needs_approval" then "needs_approval"
      else "blocked_by_auth"
  | none => "blocked_by_auth"

/-- `route_after_rag`: Python truthiness of `state.get("has_good_context")`. -/
def route_after_rag (st : TicketState) : String :=
  if st.has_good_context.getD false then "answerable" else "no_good_context"

/-- Run one node's function on the state (`add_node` registrations). -/
def applyNode (c : Collaborators) : Node → TicketState → Option TicketState
  | .lookup_employee_profile, st => some (lookup_employee_profile c st)
  | .classify_intent_and_appropriateness, st => some (classify_intent_and_appropriateness c st)
  | .check_authorization, st => check_authorization c st
  | .rag_and_llm_answering, st => rag_and_llm_answering c st
  | .return_blocked_by_appropriateness, st => some (return_blocked_by_appropriateness st)
  | .return_blocked_by_auth, st => some (return_blocked_by_auth st)
  | .return_needs_approval, st => some (return_needs_approval st)
  | .return_solved_by_rag, st => some (return_solved_by_rag st)
  | .return_escalate, st => some (return_escalate st)

/-- Successor of a node, evaluated on the state *after* the node ran:
the `add_edge` / `add_conditional_edges` wiring of `build_ticket_graph`.
`none` is the END node. -/
def nextNode : Node → TicketState → Option Node
  | .lookup_employee_profile, _ => some .classify_intent_and_appropriateness
  | .classify_intent_and_appropriateness, st =>
      if route_after_appropriateness st = "appropriate" then some .check_authorization
      else some .return_blocked_by_appropriateness
  | .check_authorization, st =>
      if route_after_authorization st = "allowed" then some .rag_and_llm_answering
      else if route_after_authorization st = "needs_approval" then some .return_needs_approval
      else some .return_blocked_by_auth
  | .rag_and_llm_answering, st =>
      if route_after_rag st = "answerable" then some .return_solved_by_rag
      else some .return_escalate
  | .return_blocked_by_appropriateness, _ => none
  | .return_blocked_by_auth, _ => none
  | .return_needs_approval, _ => none
  | .return_solved_by_rag, _ => none
  | .return_escalate, _ => none

/-- Graph driver: execute nodes from `node` until END, collecting the list of
executed nodes.  `fuel` bounds the walk (LangGraph's recursion limit); the
compiled graph's longest path has five nodes, so any fuel ≥ 5 suffices. -/
def runFrom (c : Collaborators) : Nat → Node → TicketState → Option (TicketState × List Node)
  | 0, _, _ => none
  | fuel + 1, node, st =>
      match applyNode c node st with
      | none => none
      | some st1 =>
          match nextNode node st1 with
          | none => some (st1, [node])
          | some node1 =>
              match runFrom c fuel node1 st1 with
              | none => none
              | some (stf, tr) => some (stf, node :: tr)

/-- The `initial_state` dict built by `process_ticket`. -/
def initial_state (ticket_id employee_id subject body : String) : TicketState :=
  { ticket_id := ticket_id, employee_id := employee_id, subject := subject, body := body,
    employee_profile := none, is_appropriate := none, intent := none,
    auth_decision := none, auth_reason := none, rag_context := none,
    rag_answer := none, has_good_context := none, outcome := none, response := none }

/-- `process_ticket`, with the execution trace kept alongside the final
state.  The graph's entry edge is `START → lookup_employee_profile`. -/
def process_ticket_traced (c : Collaborators) (ticket_id employee_id subject body : String) :
    Option (TicketState × List Node) :=
  runFrom c 16 Node.lookup_employee_profile (initial_state ticket_id employee_id subject body)

/-- `process_ticket(ticket_id, employee_id, subject, body)`: the final state
returned by `app.invoke(initial_state)`. -/
def process_ticket (c : Collaborators) (ticket_id employee_id subject body : String) :
    Option TicketState :=
  (process_ticket_traced c ticket_id employee_id subject body).map Prod.fst

/-! ## Rules engine (`rules_engine.py`) -/

/-- One row of `data/auth_rules.csv` as read by `apply_authorization_rules`. -/
structure AuthRule where
  intent : String
  role : String
  department : String
  outcome : String
  comment : String
  deriving DecidableEq

/-- The row filter of `apply_authorization_rules`: each of the three columns
must equal the query value or be the wildcard `"*"`. -/
def ruleMatches (r : AuthRule) (intent role department : String) : Bool :=
  (r.intent = intent || r.intent = "*") &&
  (r.role = role || r.role = "*") &&
  (r.department = department || r.department = "*")

/-- The `specificity` column: the number of non-wildcard fields. -/
def specificity (r : AuthRule) : Nat :=
  (if r.intent = "*" then 0 else 1) +
  (if r.role = "*" then 0 else 1) +
  (if r.department = "*" then 0 else 1)

/-- `sort_values(by="specificity", ascending=False)` followed by `iloc[0]`:
a rule of maximal specificity.  Among equally specific rules pandas leaves
the winner unspecified (non-stable sort); this model deterministically takes
the earliest maximal row, one of the allowed outcomes. -/
def pickMostSpecific : List AuthRule → Option AuthRule
  | [] => none
  | r :: rs =>
      match pickMostSpecific rs with
      | none => some r
      | some b => if specificity b > specificity r then some b else some r

/-- `apply_authorization_rules(intent, role, department)` over the loaded
rule table: filter, pick the most specific rule, or default to
`blocked_by_auth` when no rule applies. -/
def apply_authorization_rules (rules : List AuthRule) (intent role department : String) :
    String × String :=
  let applicable := rules.filter (fun r => ruleMatches r intent role department)
  match pickMostSpecific applicable with
  | some top => (top.outcome, top.comment)
  | none => ("blocked_by_auth", "No applicable authorization rule found.")

/-! ## RAG engine (`support_ticket_rag.py`) -/

/-- `b.isPrefix a`-style check on character lists, written out directly. -/
def listStartsWith : List Char → List Char → Bool
  | _, [] => true
  | [], _ :: _ => false
  | a :: as, b :: bs => a = b && listStartsWith as bs

/-- Contiguous-sublist test on character lists. -/
def listHasSub (pat : List Char) : List Char → Bool
  | [] => listStartsWith [] pat
  | c :: rest => listStartsWith (c :: rest) pat || listHasSub pat rest

/-- Python's substring operator `pat in s`. -/
def strContains (s pat : String) : Bool :=
  listHasSub pat.data s.data

/-- Python's `str.lower()`, character-wise (all strings the model compares
case-insensitively are ASCII). -/
def strToLower (s : String) : String := ⟨s.data.map Char.toLower⟩

/-- An apostrophe character, for building string literals. -/
def apos : String := String.singleton (Char.ofNat 39)

/-- The phrase blacklist of `process_allowed_ticket`:
a solution containing any of these (case-insensitively) is not meaningful. -/
def badPhrases : List String :=
  ["don" ++ apos ++ "t have", "cannot answer", "insufficient", "error generating",
   "not enough information"]

/-- The external parts of `SupportTicketRAG`: the keyword-overlap retrieval
(`search_knowledge_base`, returning a context string and a relevance score)
and the LLM call (`generate_solution(ticket_text, intent, context)`, which on
an internal exception returns an error string that contains
"Error generating solution:").  Scores are rationals. -/
structure RagEngine where
  search_knowledge_base : String → String → String × ℚ
  generate_solution : String → String → String → String

/-- The meaningfulness filter of `process_allowed_ticket`:
`len(solution) > 50` and no blacklisted phrase occurs in `solution.lower()`. -/
def solutionMeaningful (solution : String) : Bool :=
  decide (solution.length > 50) &&
  !(badPhrases.any (fun p => strContains (strToLower solution) p))

/-- `SupportTicketRAG.process_allowed_ticket(employee_id, ticket_text, intent)`.
The float-formatted score inside the two `debug_info` strings of the standard
path is presentation-only and elided from the modelled string. -/
def rag_process_allowed_ticket (e : RagEngine) (employee_id ticket_text intent : String) :
    RagResult :=
  if intent = "off_scope" then
    let sr := e.search_knowledge_base ticket_text intent
    if sr.1 ≠ "" then
      let guidance := e.generate_solution ticket_text intent sr.1
      { status := "escalate",
        message := "This request is outside IT support scope. " ++ guidance,
        employee_id := employee_id, intent := intent, kb_relevance := sr.2,
        debug_info := "Off-scope request - provided guidance but escalated" }
    else
      { status := "escalate",
        message := "This request appears to be outside IT support scope. Please contact the appropriate department for assistance.",
        employee_id := employee_id, intent := intent, kb_relevance := 0,
        debug_info := "Off-scope request - no KB context found" }
  else if intent = "access_request" then
    let sr := e.search_knowledge_base ticket_text intent
    if sr.2 ≥ (2 : ℚ) / 10 ∧ sr.1 ≠ "" then
      let guidance := e.generate_solution ticket_text intent sr.1
      { status := "escalate",
        message := "For access requests, please follow the standard process: " ++ guidance ++
          " Your request will be reviewed according to company security policies.",
        employee_id := employee_id, intent := intent, kb_relevance := sr.2,
        debug_info := "Access request - provided process guidance but escalated for manual processing" }
    else
      { status := "escalate",
        message := "Please submit your access request through the IT portal with business justification and manager approval. Allow 2-3 business days for processing.",
        employee_id := employee_id, intent := intent, kb_relevance := sr.2,
        debug_info := "Access request - standard escalation message" }
  else
    let sr := e.search_knowledge_base ticket_text intent
    if sr.2 ≥ (25 : ℚ) / 100 ∧ sr.1 ≠ "" then
      let solution := e.generate_solution ticket_text intent sr.1
      if solutionMeaningful solution then
        { status := "solved_by_rag", message := solution,
          employee_id := employee_id, intent := intent, kb_relevance := sr.2,
          debug_info := "KB match found" }
      else
        { status := "escalate",
          message := "This issue requires human attention. Your ticket has been escalated to our IT support team who will contact you within 4 business hours.",
          employee_id := employee_id, intent := intent, kb_relevance := sr.2,
          debug_info := "KB context insufficient or solution quality poor" }
    else
      { status := "escalate",
        message := "This issue requires human attention. Your ticket has been escalated to our IT support team who will contact you within 4 business hours.",
        employee_id := employee_id, intent := intent, kb_relevance := sr.2,
        debug_info := "KB context insufficient or solution quality poor" }

/-! ## CLI entry point (`main.py`) -/

/-- Outcome of a Python call or statement: a value or a raised exception. -/
inductive PyResult (α : Type) where
  | ok : α → PyResult α
  | exc : String → PyResult α
  deriving DecidableEq

/-- Python call semantics for `process_ticket` from `main.py`:
the function declares four required positional parameters
`(ticket_id, employee_id, subject, body)`, so a call whose positional
argument list does not have exactly four elements raises `TypeError`
before the function body runs. -/
def call_process_ticket (c : Collaborators) (args : List String) :
    PyResult (Option TicketState) :=
  match args with
  | [ticket_id, employee_id, subject, body] =>
      .ok (process_ticket c ticket_id employee_id subject body)
  | _ => .exc "TypeError"

/-- `main()` of `main.py`, after `get_user_input` has produced
`(employee_id, subject, body)`: it calls
`process_ticket(employee_id, subject, body)` — three arguments — inside
`try`; any `Exception` is caught by the generic handler which prints an
error and does `sys.exit(1)`.  The result is the pair
(exit status, displayed pipeline result if any). -/
def cli_main (c : Collaborators) (employee_id subject body : String) :
    Nat × Option TicketState :=
  match call_process_ticket c [employee_id, subject, body] with
  | .ok result => (0, result)
  | .exc _ => (1, none)

/-! ## Concrete collaborator instances

Used by the closed witness and counterexample theorems below: collaborators
whose four calls return fixed outputs, so a whole pipeline run evaluates by
`decide` / `rfl`. -/

/-- Collaborators with constant outputs. -/
def constCollaborators (prof : Option EmployeeProfile) (cr : ClassifyResult)
    (auth : String × String) (rag : RagResult) : Collaborators :=
  { lookup_employee := fun _ => prof,
    classify_intent_and_appropriateness := fun _ => cr,
    apply_authorization_rules := fun _ _ _ => auth,
    process_allowed_ticket := fun _ _ _ => rag }

/-- A sample employee profile row. -/
def profJunior : EmployeeProfile :=
  { employee_id := "E1", role := "junior_engineer", department := "engineering",
    seniority := "junior" }

/-- A sample RAG escalation result whose message differs from the pipeline's
fixed escalation template. -/
def ragEscalated : RagResult :=
  { status := "escalate", message := "This issue requires human attention.",
    employee_id := "E1", intent := "hardware_issue", kb_relevance := 0,
    debug_info := "dbg" }

/-- A sample RAG solved result with a non-empty answer. -/
def ragSolved : RagResult :=
  { status := "solved_by_rag", message := "Replace the keyboard.",
    employee_id := "E1", intent := "hardware_issue", kb_relevance := 1,
    debug_info := "dbg" }

/-- A sample RAG solved result whose message is the empty string. -/
def ragSolvedEmpty : RagResult :=
  { status := "solved_by_rag", message := "",
    employee_id := "E1", intent := "hardware_issue", kb_relevance := 1,
    debug_info := "dbg" }

/-- Concrete run reaching the Escalate terminal. -/
def cexEscalate : Collaborators :=
  constCollaborators (some profJunior) ⟨true, "hardware_issue"⟩ ("allowed", "ok") ragEscalated

/-- Concrete run reaching SolvedByRag with an empty engine message. -/
def cexEmptyAnswer : Collaborators :=
  constCollaborators none ⟨true, "hardware_issue"⟩ ("allowed", "ok") ragSolvedEmpty

/-- Concrete run reaching SolvedByRag with a non-empty engine message. -/
def cwSolved : Collaborators :=
  constCollaborators (some profJunior) ⟨true, "hardware_issue"⟩ ("allowed", "ok") ragSolved

/-- Concrete run blocked by the appropriateness gate. -/
def cwInappropriate : Collaborators :=
  constCollaborators (some profJunior) ⟨false, "off_scope"⟩ ("allowed", "ok") ragSolved

/-- Concrete run stopped at NeedsApproval. -/
def cwNeedsApproval : Collaborators :=
  constCollaborators (some profJunior) ⟨true, "access_request"⟩
    ("needs_approval", "Manager approval required.") ragSolved

/-- Concrete run whose authorization decision is an unexpected string. -/
def cwWeirdDecision : Collaborators :=
  constCollaborators (some profJunior) ⟨true, "hardware_issue"⟩ ("maybe_later", "odd") ragSolved

/-- Concrete run whose employee lookup finds nothing. -/
def cwNoProfile : Collaborators :=
  constCollaborators none ⟨true, "hardware_issue"⟩ ("allowed", "ok") ragEscalated

/-- A rule table with a single hardware rule, for the no-match witness. -/
def rulesHardwareOnly : List AuthRule :=
  [{ intent := "hardware_issue", role := "*", department := "*", outcome := "allowed",
     comment := "All employees can raise hardware issues." }]

/-- A RAG engine whose LLM call fails internally: `generate_solution` caught
an exception and returned its error string. -/
def ragEngineFailing : RagEngine :=
  { search_knowledge_base := fun _ _ => ("VPN Connection Problems", 1),
    generate_solution := fun _ _ _ => "Error generating solution: boom" }

/-! ## Characterization of the graph walk

`pipeline_result` computes, as a straight-line function of the collaborator
outputs, the final state and node trace that the graph driver produces; the
lemma `process_ticket_traced_eq` proves the two agree for every input.  All
claim theorems about the pipeline are derived from it. -/

/-- The state after the two unconditional stages (lookup, classify). -/
def stateAfterClassify (c : Collaborators) (ticket_id employee_id subject body : String) :
    TicketState :=
  let cr := c.classify_intent_and_appropriateness (subject ++ "\n" ++ body)
  { initial_state ticket_id employee_id subject body with
      employee_profile := some (c.lookup_employee employee_id),
      is_appropriate := some cr.is_appropriate,
      intent := some cr.intent }

/-- Straight-line description of the full graph walk: final state and trace. -/
def pipeline_result (c : Collaborators) (ticket_id employee_id subject body : String) :
    TicketState × List Node :=
  let prof := c.lookup_employee employee_id
  let cr := c.classify_intent_and_appropriateness (subject ++ "\n" ++ body)
  let st1 := stateAfterClassify c ticket_id employee_id subject body
  if cr.is_appropriate then
    let auth := c.apply_authorization_rules cr.intent (profileRole prof) (profileDepartment prof)
    let st2 := { st1 with auth_decision := some auth.1, auth_reason := some auth.2 }
    if auth.1 = "allowed" then
      let rag := c.process_allowed_ticket employee_id (subject ++ "\n" ++ body) cr.intent
      let st3 := { st2 with
                     rag_context := some rag.debug_info,
                     rag_answer := some rag.message,
                     has_good_context := some (decide (rag.status = "solved_by_rag")) }
      if rag.status = "solved_by_rag" then
        (return_solved_by_rag st3,
         [.lookup_employee_profile, .classify_intent_and_appropriateness,
          .check_authorization, .rag_and_llm_answering, .return_solved_by_rag])
      else
        (return_escalate st3,
         [.lookup_employee_profile, .classify_intent_and_appropriateness,
          .check_authorization, .rag_and_llm_answering, .return_escalate])
    else if auth.1 = "needs_approval" then
      (return_needs_approval st2,
       [.lookup_employee_profile, .classify_intent_and_appropriateness,
        .check_authorization, .return_needs_approval])
    else
      (return_blocked_by_auth st2,
       [.lookup_employee_profile, .classify_intent_and_appropriateness,
        .check_authorization, .return_blocked_by_auth])
  else
    (return_blocked_by_appropriateness st1,
     [.lookup_employee_profile, .classify_intent_and_appropriateness,
      .return_blocked_by_appropriateness])

theorem process_ticket_traced_eq (c : Collaborators)
    (ticket_id employee_id subject body : String) :
    process_ticket_traced c ticket_id employee_id subject body =
      some (pipeline_result c ticket_id employee_id subject body) := by
  rcases hcr : c.classify_intent_and_appropriateness (subject ++ "\n" ++ body) with ⟨app, i⟩
  cases app with
  | false =>
      simp [process_ticket_traced, pipeline_result, stateAfterClassify, runFrom, applyNode,
        nextNode, lookup_employee_profile, classify_intent_and_appropriateness,
        route_after_appropriateness, return_blocked_by_appropriateness, initial_state, hcr]
  | true =>
      rcases hauth : c.apply_authorization_rules i
          (profileRole (c.lookup_employee employee_id))
          (profileDepartment (c.lookup_employee employee_id)) with ⟨d, reason⟩
      by_cases hd : d = "allowed"
      · subst hd
        rcases hrag : c.process_allowed_ticket employee_id (subject ++ "\n" ++ body) i
          with ⟨status, msg, re, ri, score, dbg⟩
        by_cases hs : status = "solved_by_rag"
        · subst hs
          simp [process_ticket_traced, pipeline_result, stateAfterClassify, runFrom, applyNode,
            nextNode, lookup_employee_profile, classify_intent_and_appropriateness,
            check_authorization, rag_and_llm_answering, route_after_appropriateness,
            route_after_authorization, route_after_rag, return_solved_by_rag,
            initial_state, hcr, hauth, hrag]
        · simp [process_ticket_traced, pipeline_result, stateAfterClassify, runFrom, applyNode,
            nextNode, lookup_employee_profile, classify_intent_and_appropriateness,
            check_authorization, rag_and_llm_answering, route_after_appropriateness,
            route_after_authorization, route_after_rag, return_escalate,
            initial_state, hcr, hauth, hrag, hs]
      · by_cases hn : d = "needs_approval"
        · subst hn
          simp [process_ticket_traced, pipeline_result, stateAfterClassify, runFrom, applyNode,
            nextNode, lookup_employee_profile, classify_intent_and_appropriateness,
            check_authorization, route_after_appropriateness, route_after_authorization,
            return_needs_approval, initial_state, hcr, hauth, hd]
        · simp [process_ticket_traced, pipeline_result, stateAfterClassify, runFrom, applyNode,
            nextNode, lookup_employee_profile, classify_intent_and_appropriateness,
            check_authorization, route_after_appropriateness, route_after_authorization,
            return_blocked_by_auth, initial_state, hcr, hauth, hd, hn]

/-! ## Claims -/

/-- Claim C7: in every run the non-terminal stages execute strictly in the
order LookupProfile → Classify → Authorize → Resolve; the executed-node
trace is one of exactly five sequences, each listing every stage at most
once, in that order, skipping stages only via the defined branches, and
ending at the single terminal node that sets the outcome — so no stage runs
after a terminal stage, and no stage is re-entered. -/
theorem c7_stage_order (c : Collaborators) (tid eid s b : String) :
    ∃ st tr, process_ticket_traced c tid eid s b = some (st, tr) ∧
      (tr = [Node.lookup_employee_profile, Node.classify_intent_and_appropriateness,
             Node.return_blocked_by_appropriateness] ∨
       tr = [Node.lookup_employee_profile, Node.classify_intent_and_appropriateness,
             Node.check_authorization, Node.return_needs_approval] ∨
       tr = [Node.lookup_employee_profile, Node.classify_intent_and_appropriateness,
             Node.check_authorization, Node.return_blocked_by_auth] ∨
       tr = [Node.lookup_employee_profile, Node.classify_intent_and_appropriateness,
             Node.check_authorization, Node.rag_and_llm_answering,
             Node.return_solved_by_rag] ∨
       tr = [Node.lookup_employee_profile, Node.classify_intent_and_appropriateness,
             Node.check_authorization, Node.rag_and_llm_answering,
             Node.return_escalate]) := by
  refine ⟨(pipeline_result c tid eid s b).1, (pipeline_result c tid eid s b).2,
    by rw [process_ticket_traced_eq], ?_⟩
  simp only [pipeline_result]
  split
  · split
    · split
      · simp
      · simp
    · split
      · simp
      · simp
  · simp

/-- Claim C10: the CLI entry point calls `process_ticket` with three
positional arguments while the function requires four, so every run of
`main` raises a `TypeError` before the pipeline is entered; the generic
`except Exception` handler catches it and the process exits with status 1
without ever displaying a pipeline result. -/
theorem c10_cli_type_error (c : Collaborators) (employee_id subject body : String) :
    cli_main c employee_id subject body = (1, none) := rfl

/-- Claim C3: whenever classification returns appropriateness = false, the
run terminates with outcome `blocked_by_appropriateness` and the fixed
templated message, for every returned category and whatever the rule engine
or RAG engine would return; the authorization and resolution nodes are not in
the trace, and `auth_decision`, `auth_reason`, `rag_answer`, `rag_context`
and `has_good_context` are still unset (`None`) in the final state. -/
theorem c3_blocked_by_appropriateness (c : Collaborators) (tid eid s b i : String)
    (hcl : c.classify_intent_and_appropriateness (s ++ "\n" ++ b) = ⟨false, i⟩) :
    ∃ st tr, process_ticket_traced c tid eid s b = some (st, tr) ∧
      st.outcome = some "blocked_by_appropriateness" ∧
      st.response = some "Your request cannot be processed as it is not appropriate for this support channel." ∧
      st.auth_decision = none ∧ st.auth_reason = none ∧
      st.rag_answer = none ∧ st.rag_context = none ∧ st.has_good_context = none ∧
      Node.check_authorization ∉ tr ∧ Node.rag_and_llm_answering ∉ tr := by
  refine ⟨(pipeline_result c tid eid s b).1, (pipeline_result c tid eid s b).2,
    by rw [process_ticket_traced_eq], ?_⟩
  simp [pipeline_result, stateAfterClassify, initial_state,
    return_blocked_by_appropriateness, hcl]

/-- Claim C4: with appropriateness = true and authorization decision
`needs_approval`, the run terminates with outcome `needs_approval` and the
fixed templated message; the resolution node is not in the trace and the RAG
fields are still unset, whatever the Resolution Engine would have returned. -/
theorem c4_needs_approval (c : Collaborators) (tid eid s b i : String)
    (hcl : c.classify_intent_and_appropriateness (s ++ "\n" ++ b) = ⟨true, i⟩)
    (hauth : (c.apply_authorization_rules i (profileRole (c.lookup_employee eid))
        (profileDepartment (c.lookup_employee eid))).1 = "needs_approval") :
    ∃ st tr, process_ticket_traced c tid eid s b = some (st, tr) ∧
      st.outcome = some "needs_approval" ∧
      st.response = some "Your request requires manager approval before it can be processed." ∧
      st.rag_answer = none ∧ st.rag_context = none ∧ st.has_good_context = none ∧
      Node.rag_and_llm_answering ∉ tr := by
  refine ⟨(pipeline_result c tid eid s b).1, (pipeline_result c tid eid s b).2,
    by rw [process_ticket_traced_eq], ?_⟩
  simp [pipeline_result, stateAfterClassify, initial_state,
    return_needs_approval, hcl, hauth]

/-- Claim C5: with appropriateness = true, any authorization decision other
than `allowed` and `needs_approval` — which includes `blocked_by_auth`
itself and any unexpected string — terminates the run with outcome
`blocked_by_auth`, the fixed templated message, and no resolution stage;
and the rule engine itself returns decision `blocked_by_auth` (with its
fixed reason) whenever no rule row matches the (category, role, department)
triple. -/
theorem c5_blocked_by_auth_default :
    (∀ (rules : List AuthRule) (i r d : String),
        (∀ ru ∈ rules, ruleMatches ru i r d = false) →
        apply_authorization_rules rules i r d =
          ("blocked_by_auth", "No applicable authorization rule found.")) ∧
    (∀ (c : Collaborators) (tid eid s b i : String),
        c.classify_intent_and_appropriateness (s ++ "\n" ++ b) = ⟨true, i⟩ →
        (c.apply_authorization_rules i (profileRole (c.lookup_employee eid))
            (profileDepartment (c.lookup_employee eid))).1 ≠ "allowed" →
        (c.apply_authorization_rules i (profileRole (c.lookup_employee eid))
            (profileDepartment (c.lookup_employee eid))).1 ≠ "needs_approval" →
        ∃ st tr, process_ticket_traced c tid eid s b = some (st, tr) ∧
          st.outcome = some "blocked_by_auth" ∧
          st.response = some "You are not authorized to perform this action." ∧
          st.rag_answer = none ∧ st.rag_context = none ∧ st.has_good_context = none ∧
          Node.rag_and_llm_answering ∉ tr) := by
  constructor
  · intro rules i r d h
    have hfil : rules.filter (fun ru => ruleMatches ru i r d) = [] := by
      rw [List.filter_eq_nil_iff]
      intro ru hru
      simp [h ru hru]
    simp [apply_authorization_rules, hfil, pickMostSpecific]
  · intro c tid eid s b i hcl h1 h2
    refine ⟨(pipeline_result c tid eid s b).1, (pipeline_result c tid eid s b).2,
      by rw [process_ticket_traced_eq], ?_⟩
    simp [pipeline_result, stateAfterClassify, initial_state,
      return_blocked_by_auth, hcl, h1, h2]

/-- Claim C6: with appropriateness = true, decision `allowed`, and a
Resolution Engine result with status `solved_by_rag` (sufficiently answered),
the run terminates with outcome `solved_by_rag` and the response is the
engine's message, character for character. -/
theorem c6_solved_by_rag_verbatim (c : Collaborators) (tid eid s b i : String)
    (hcl : c.classify_intent_and_appropriateness (s ++ "\n" ++ b) = ⟨true, i⟩)
    (hauth : (c.apply_authorization_rules i (profileRole (c.lookup_employee eid))
        (profileDepartment (c.lookup_employee eid))).1 = "allowed")
    (hrag : (c.process_allowed_ticket eid (s ++ "\n" ++ b) i).status = "solved_by_rag") :
    ∃ st, process_ticket c tid eid s b = some st ∧
      st.outcome = some "solved_by_rag" ∧
      st.response = some (c.process_allowed_ticket eid (s ++ "\n" ++ b) i).message := by
  refine ⟨(pipeline_result c tid eid s b).1,
    by rw [process_ticket, process_ticket_traced_eq]; rfl, ?_⟩
  simp [pipeline_result, stateAfterClassify, initial_state,
    return_solved_by_rag, hcl, hauth, hrag]

/-- Claim C1 (amended): with appropriateness = true, decision `allowed`, and
a Resolution Engine result whose status is not `solved_by_rag`
(sufficiently_answered = false), the run terminates with outcome `escalate`;
the response is the pipeline's fixed templated escalation message — not the
Resolution Engine's escalation text, which is only retained in the
`rag_answer` field. -/
theorem c1_escalate_fixed_message (c : Collaborators) (tid eid s b i : String)
    (hcl : c.classify_intent_and_appropriateness (s ++ "\n" ++ b) = ⟨true, i⟩)
    (hauth : (c.apply_authorization_rules i (profileRole (c.lookup_employee eid))
        (profileDepartment (c.lookup_employee eid))).1 = "allowed")
    (hrag : (c.process_allowed_ticket eid (s ++ "\n" ++ b) i).status ≠ "solved_by_rag") :
    ∃ st, process_ticket c tid eid s b = some st ∧
      st.outcome = some "escalate" ∧
      st.response = some "Your request has been escalated to a human support agent." ∧
      st.rag_answer = some (c.process_allowed_ticket eid (s ++ "\n" ++ b) i).message := by
  refine ⟨(pipeline_result c tid eid s b).1,
    by rw [process_ticket, process_ticket_traced_eq]; rfl, ?_⟩
  simp [pipeline_result, stateAfterClassify, initial_state,
    return_escalate, hcl, hauth, hrag]

/-- Claim C1, counterexample to the claim as stated: a run that reaches the
Escalate terminal whose response is the fixed template and differs from the
Resolution Engine's escalation text, so the response is not the engine's
text passed through verbatim. -/
theorem c1_counterexample :
    (process_ticket cexEscalate "T1" "E1" "subj" "bodytext").bind TicketState.outcome =
      some "escalate" ∧
    (process_ticket cexEscalate "T1" "E1" "subj" "bodytext").bind TicketState.rag_answer =
      some "This issue requires human attention." ∧
    (process_ticket cexEscalate "T1" "E1" "subj" "bodytext").bind TicketState.response =
      some "Your request has been escalated to a human support agent." ∧
    ("Your request has been escalated to a human support agent." : String) ≠
      "This issue requires human attention." := by
  decide

/-- Claim C2 (amended): for every ticket and every combination of
collaborator outputs, the run completes and the outcome is exactly one of
the five labels — unconditionally.  The response is the fixed non-empty
template of the reached terminal in every outcome except `solved_by_rag`,
where it is the Resolution Engine's message verbatim; consequently the
response is non-empty provided the engine's message for this ticket is
non-empty. -/
theorem c2_outcome_and_response (c : Collaborators) (tid eid s b : String) :
    ∃ st, process_ticket c tid eid s b = some st ∧
      (st.outcome = some "blocked_by_appropriateness" ∨ st.outcome = some "blocked_by_auth" ∨
       st.outcome = some "needs_approval" ∨ st.outcome = some "solved_by_rag" ∨
       st.outcome = some "escalate") ∧
      (st.outcome = some "blocked_by_appropriateness" →
        st.response = some "Your request cannot be processed as it is not appropriate for this support channel.") ∧
      (st.outcome = some "blocked_by_auth" →
        st.response = some "You are not authorized to perform this action.") ∧
      (st.outcome = some "needs_approval" →
        st.response = some "Your request requires manager approval before it can be processed.") ∧
      (st.outcome = some "escalate" →
        st.response = some "Your request has been escalated to a human support agent.") ∧
      (st.outcome = some "solved_by_rag" →
        st.response = some (c.process_allowed_ticket eid (s ++ "\n" ++ b)
          (c.classify_intent_and_appropriateness (s ++ "\n" ++ b)).intent).message) ∧
      (st.outcome ≠ some "solved_by_rag" → ∃ r, st.response = some r ∧ r ≠ "") ∧
      ((c.process_allowed_ticket eid (s ++ "\n" ++ b)
          (c.classify_intent_and_appropriateness (s ++ "\n" ++ b)).intent).message ≠ "" →
        ∃ r, st.response = some r ∧ r ≠ "") := by
  refine ⟨(pipeline_result c tid eid s b).1,
    by rw [process_ticket, process_ticket_traced_eq]; rfl, ?_⟩
  rcases hcr : c.classify_intent_and_appropriateness (s ++ "\n" ++ b) with ⟨app, i⟩
  cases app with
  | false =>
      simp [pipeline_result, stateAfterClassify, return_blocked_by_appropriateness, hcr]
  | true =>
      by_cases hd : (c.apply_authorization_rules i (profileRole (c.lookup_employee eid))
          (profileDepartment (c.lookup_employee eid))).1 = "allowed"
      · by_cases hs : (c.process_allowed_ticket eid (s ++ "\n" ++ b) i).status = "solved_by_rag"
        · simp [pipeline_result, stateAfterClassify, return_solved_by_rag, hcr, hd, hs]
        · simp [pipeline_result, stateAfterClassify, return_escalate, hcr, hd, hs]
      · by_cases hn : (c.apply_authorization_rules i (profileRole (c.lookup_employee eid))
            (profileDepartment (c.lookup_employee eid))).1 = "needs_approval"
        · simp [pipeline_result, stateAfterClassify, return_needs_approval, hcr, hd, hn]
        · simp [pipeline_result, stateAfterClassify, return_blocked_by_auth, hcr, hd, hn]

/-- Claim C2, counterexample to the claim as stated: with a Resolution
Engine output of status `solved_by_rag` and an empty message — one of the
collaborator-output combinations the claim quantifies over — the completed
run's response string is empty. -/
theorem c2_counterexample :
    (process_ticket cexEmptyAnswer "T1" "E1" "subj" "bodytext").bind TicketState.outcome =
      some "solved_by_rag" ∧
    (process_ticket cexEmptyAnswer "T1" "E1" "subj" "bodytext").bind TicketState.response =
      some "" := by
  decide

/-- Claim C8: for every requester identifier for which the Employee
Directory finds no profile, the lookup stage still transitions to the
classification stage (the trace begins Lookup, Classify), the absence is
converted into an empty profile, the run completes with one of the five
outcomes (no distinct terminal outcome, no pipeline failure), and if the
run reaches the authorization stage the rule engine is called with role and
department read as empty strings. -/
theorem c8_lookup_absence (c : Collaborators) (tid eid s b : String)
    (hlk : c.lookup_employee eid = none) :
    ∃ st tr, process_ticket_traced c tid eid s b = some (st, tr) ∧
      tr.take 2 = [Node.lookup_employee_profile, Node.classify_intent_and_appropriateness] ∧
      st.employee_profile = some none ∧
      (st.outcome = some "blocked_by_appropriateness" ∨ st.outcome = some "blocked_by_auth" ∨
       st.outcome = some "needs_approval" ∨ st.outcome = some "solved_by_rag" ∨
       st.outcome = some "escalate") ∧
      (∀ i, c.classify_intent_and_appropriateness (s ++ "\n" ++ b) = ⟨true, i⟩ →
        st.auth_decision = some (c.apply_authorization_rules i "" "").1) := by
  refine ⟨(pipeline_result c tid eid s b).1, (pipeline_result c tid eid s b).2,
    by rw [process_ticket_traced_eq], ?_⟩
  rcases hcr : c.classify_intent_and_appropriateness (s ++ "\n" ++ b) with ⟨app, i⟩
  cases app with
  | false =>
      simp [pipeline_result, stateAfterClassify, initial_state,
        return_blocked_by_appropriateness, hcr, hlk]
  | true =>
      by_cases hd : (c.apply_authorization_rules i "" "").1 = "allowed"
      · by_cases hs : (c.process_allowed_ticket eid (s ++ "\n" ++ b) i).status = "solved_by_rag"
        · simp [pipeline_result, stateAfterClassify, initial_state, profileRole,
            profileDepartment, return_solved_by_rag, hcr, hlk, hd, hs]
        · simp [pipeline_result, stateAfterClassify, initial_state, profileRole,
            profileDepartment, return_escalate, hcr, hlk, hd, hs]
      · by_cases hn : (c.apply_authorization_rules i "" "").1 = "needs_approval"
        · simp [pipeline_result, stateAfterClassify, initial_state, profileRole,
            profileDepartment, return_needs_approval, hcr, hlk, hd, hn]
        · simp [pipeline_result, stateAfterClassify, initial_state, profileRole,
            profileDepartment, return_blocked_by_auth, hcr, hlk, hd, hn]

/-- Claim C9: for every intent other than `off_scope` and `access_request`,
if the internal answer generation failed — `generate_solution` caught an
exception and returned its error string, which contains
"error generating" once lowercased — then `process_allowed_ticket` degrades
to status `escalate` (so sufficiently_answered is false) with a non-empty
escalation message; it never returns `solved_by_rag` carrying the error
text. -/
theorem c9_rag_error_degrades (e : RagEngine) (eid text i : String)
    (h1 : i ≠ "off_scope") (h2 : i ≠ "access_request")
    (h3 : strContains
        (strToLower (e.generate_solution text i (e.search_knowledge_base text i).1))
        "error generating" = true) :
    (rag_process_allowed_ticket e eid text i).status = "escalate" ∧
    (rag_process_allowed_ticket e eid text i).message ≠ "" := by
  have hbad : badPhrases.any
      (fun p => strContains
        (strToLower (e.generate_solution text i (e.search_knowledge_base text i).1)) p) = true := by
    rw [List.any_eq_true]
    exact ⟨"error generating", by simp [badPhrases], h3⟩
  have hmean : solutionMeaningful
      (e.generate_solution text i (e.search_knowledge_base text i).1) = false := by
    simp [solutionMeaningful, hbad]
  by_cases hctx : (e.search_knowledge_base text i).2 ≥ (25 : ℚ) / 100 ∧
      (e.search_knowledge_base text i).1 ≠ ""
  · constructor
    · simp [rag_process_allowed_ticket, h1, h2, hctx, hmean]
    · simp [rag_process_allowed_ticket, h1, h2, hctx, hmean]
  · constructor
    · simp [rag_process_allowed_ticket, h1, h2, hctx]
    · simp [rag_process_allowed_ticket, h1, h2, hctx]

/-! ## Witnesses: each hypothesis-bearing claim theorem applied at a
concrete run. -/

/-- Claim C3 witness: a concrete inappropriate ticket. -/
theorem c3_witness :
    ∃ st tr, process_ticket_traced cwInappropriate "T1" "E1" "subj" "bodytext" = some (st, tr) ∧
      st.outcome = some "blocked_by_appropriateness" ∧
      st.response = some "Your request cannot be processed as it is not appropriate for this support channel." ∧
      st.auth_decision = none ∧ st.auth_reason = none ∧
      st.rag_answer = none ∧ st.rag_context = none ∧ st.has_good_context = none ∧
      Node.check_authorization ∉ tr ∧ Node.rag_and_llm_answering ∉ tr :=
  c3_blocked_by_appropriateness cwInappropriate "T1" "E1" "subj" "bodytext" "off_scope" rfl

/-- Claim C4 witness: a concrete ticket whose decision is `needs_approval`. -/
theorem c4_witness :
    ∃ st tr, process_ticket_traced cwNeedsApproval "T1" "E1" "subj" "bodytext" = some (st, tr) ∧
      st.outcome = some "needs_approval" ∧
      st.response = some "Your request requires manager approval before it can be processed." ∧
      st.rag_answer = none ∧ st.rag_context = none ∧ st.has_good_context = none ∧
      Node.rag_and_llm_answering ∉ tr :=
  c4_needs_approval cwNeedsApproval "T1" "E1" "subj" "bodytext" "access_request" rfl rfl

/-- Claim C5 witness: a rule table with no matching row, and a concrete run
whose decision is an unexpected string. -/
theorem c5_witness :
    apply_authorization_rules rulesHardwareOnly "policy_question" "junior_engineer" "engineering" =
      ("blocked_by_auth", "No applicable authorization rule found.") ∧
    ∃ st tr, process_ticket_traced cwWeirdDecision "T1" "E1" "subj" "bodytext" = some (st, tr) ∧
      st.outcome = some "blocked_by_auth" ∧
      st.response = some "You are not authorized to perform this action." ∧
      st.rag_answer = none ∧ st.rag_context = none ∧ st.has_good_context = none ∧
      Node.rag_and_llm_answering ∉ tr :=
  ⟨c5_blocked_by_auth_default.1 rulesHardwareOnly "policy_question" "junior_engineer"
     "engineering" (by decide),
   c5_blocked_by_auth_default.2 cwWeirdDecision "T1" "E1" "subj" "bodytext" "hardware_issue"
     rfl (by decide) (by decide)⟩

/-- Claim C6 witness: a concrete solved run; the response is the engine's
message. -/
theorem c6_witness :
    ∃ st, process_ticket cwSolved "T1" "E1" "subj" "bodytext" = some st ∧
      st.outcome = some "solved_by_rag" ∧
      st.response = some
        (cwSolved.process_allowed_ticket "E1" ("subj" ++ "\n" ++ "bodytext")
          "hardware_issue").message :=
  c6_solved_by_rag_verbatim cwSolved "T1" "E1" "subj" "bodytext" "hardware_issue" rfl rfl rfl

/-- Claim C1 witness (for the amended statement): a concrete escalated run. -/
theorem c1_witness :
    ∃ st, process_ticket cexEscalate "T2" "E1" "subj" "bodytext" = some st ∧
      st.outcome = some "escalate" ∧
      st.response = some "Your request has been escalated to a human support agent." ∧
      st.rag_answer = some
        (cexEscalate.process_allowed_ticket "E1" ("subj" ++ "\n" ++ "bodytext")
          "hardware_issue").message :=
  c1_escalate_fixed_message cexEscalate "T2" "E1" "subj" "bodytext" "hardware_issue"
    rfl rfl (by decide)

/-- Claim C2 witness (for the amended statement): the characterization
applied at a concrete solved run. -/
theorem c2_witness :
    ∃ st, process_ticket cwSolved "T2" "E1" "subj" "bodytext" = some st ∧
      (st.outcome = some "blocked_by_appropriateness" ∨ st.outcome = some "blocked_by_auth" ∨
       st.outcome = some "needs_approval" ∨ st.outcome = some "solved_by_rag" ∨
       st.outcome = some "escalate") ∧
      (st.outcome = some "blocked_by_appropriateness" →
        st.response = some "Your request cannot be processed as it is not appropriate for this support channel.") ∧
      (st.outcome = some "blocked_by_auth" →
        st.response = some "You are not authorized to perform this action.") ∧
      (st.outcome = some "needs_approval" →
        st.response = some "Your request requires manager approval before it can be processed.") ∧
      (st.outcome = some "escalate" →
        st.response = some "Your request has been escalated to a human support agent.") ∧
      (st.outcome = some "solved_by_rag" →
        st.response = some (cwSolved.process_allowed_ticket "E1" ("subj" ++ "\n" ++ "bodytext")
          (cwSolved.classify_intent_and_appropriateness ("subj" ++ "\n" ++ "bodytext")).intent).message) ∧
      (st.outcome ≠ some "solved_by_rag" → ∃ r, st.response = some r ∧ r ≠ "") ∧
      ((cwSolved.process_allowed_ticket "E1" ("subj" ++ "\n" ++ "bodytext")
          (cwSolved.classify_intent_and_appropriateness ("subj" ++ "\n" ++ "bodytext")).intent).message ≠ "" →
        ∃ r, st.response = some r ∧ r ≠ "") :=
  c2_outcome_and_response cwSolved "T2" "E1" "subj" "bodytext"

/-- Claim C8 witness: a concrete run with an unknown requester identifier. -/
theorem c8_witness :
    ∃ st tr, process_ticket_traced cwNoProfile "T1" "E404" "subj" "bodytext" = some (st, tr) ∧
      tr.take 2 = [Node.lookup_employee_profile, Node.classify_intent_and_appropriateness] ∧
      st.employee_profile = some none ∧
      (st.outcome = some "blocked_by_appropriateness" ∨ st.outcome = some "blocked_by_auth" ∨
       st.outcome = some "needs_approval" ∨ st.outcome = some "solved_by_rag" ∨
       st.outcome = some "escalate") ∧
      (∀ i, cwNoProfile.classify_intent_and_appropriateness ("subj" ++ "\n" ++ "bodytext") =
          ⟨true, i⟩ →
        st.auth_decision = some (cwNoProfile.apply_authorization_rules i "" "").1) :=
  c8_lookup_absence cwNoProfile "T1" "E404" "subj" "bodytext" rfl

/-- Claim C9 witness: a concrete engine whose LLM call failed with a caught
exception. -/
theorem c9_witness :
    (rag_process_allowed_ticket ragEngineFailing "E1" "my vpn is broken" "network_issue").status =
      "escalate" ∧
    (rag_process_allowed_ticket ragEngineFailing "E1" "my vpn is broken" "network_issue").message ≠
      "" :=
  c9_rag_error_degrades ragEngineFailing "E1" "my vpn is broken" "network_issue"
    (by decide) (by decide) (by decide)

end TicketCopilot
